import Mathlib

/-!
# Verification of the Home Assistant reference validator

A shallow embedding of `tools/reference_validator.py`: the classifier
predicate `is_uuid_format`, the recursive reference-extraction walks over a
parsed YAML document tree, the Jinja2 template scanner, the lazily cached
registry loaders, and `validate_file_references`, together with theorems
checking the natural-language specification against this code.

Python strings are modelled as `String`/`List Char`; Python dicts keyed by
strings are association lists with Python's insertion semantics (replace in
place, else append); the validator instance's mutable fields (`errors`,
`warnings` and the three registry caches) are threaded as an explicit state
record; the filesystem the loaders read is an explicit `Storage` value.
-/

set_option autoImplicit false

namespace RefValidator

/-! ## The classifier: `is_uuid_format`

The source checks `re.match(r"^[a-f0-9]{32}$", value)`.  We embed the exact
semantics of this Python pattern: 32 characters of the class `[a-f0-9]` from
the start of the string, then `$`, which in Python (without `re.MULTILINE`)
matches at the end of the string or just before a newline that ends the
string. -/

/-- The character class `[a-f0-9]` of the pattern. -/
def isLowerHexChar (c : Char) : Bool :=
  ('a' ≤ c && c ≤ 'f') || ('0' ≤ c && c ≤ '9')

/-- Consume exactly `n` characters satisfying `cls`; return the rest of the
input, or `none` when the input is too short or a character fails `cls`. -/
def matchRepeat (cls : Char → Bool) : Nat → List Char → Option (List Char)
  | 0, rest => some rest
  | _ + 1, [] => none
  | n + 1, c :: cs => if cls c then matchRepeat cls n cs else none

/-- Python's `$` anchor (no `MULTILINE`): it matches at the end of the string
and also just before a newline that is the last character. -/
def dollarAnchor : List Char → Bool
  | [] => true
  | [c] => c == '\n'
  | _ => false

/-- `is_uuid_format` of the source: `re.match(r"^[a-f0-9]{32}$", value)`. -/
def is_uuid_format (value : String) : Bool :=
  match matchRepeat isLowerHexChar 32 value.toList with
  | some rest => dollarAnchor rest
  | none => false

/-! ## Parsed document trees

`yaml.load` hands the walks an arbitrary nest of dicts, lists and scalars.
A dict is a sequence of key/value items (keys are the strings the code
compares against), a list a sequence of nodes; scalars are strings or
other scalars (numbers, booleans, null), which the walks never inspect. -/

/-- A parsed YAML document tree.  `mapCons k v rest` is a dict whose first
item is `(k, v)` and whose remaining items are `rest`; `seqCons` likewise for
lists.  `scalar` stands for any non-string scalar. -/
inductive Yaml where
  | str (s : String)
  | scalar
  | seqNil
  | seqCons (hd tl : Yaml)
  | mapNil
  | mapCons (key : String) (val tl : Yaml)
deriving DecidableEq, Repr

/-- `isinstance(value, dict)`. -/
def Yaml.isDict : Yaml → Bool
  | .mapNil => true
  | .mapCons _ _ _ => true
  | _ => false

/-! ## Substring search (Python's `in` on strings) -/

/-- `needle` occurs as a contiguous run in `hay`. -/
def listContainsSub (needle : List Char) : List Char → Bool
  | [] => needle.isEmpty
  | c :: tl => needle.isPrefixOf (c :: tl) || listContainsSub needle tl

/-- Python's `needle in hay` on strings. -/
def strContains (hay needle : String) : Bool :=
  listContainsSub needle.toList hay.toList

/-- `any(x in value for x in ["state_attr(", "states(", "is_state("])`,
the guard that routes a string to the template scanner. -/
def hasTemplateCall (value : String) : Bool :=
  strContains value "state_attr(" || strContains value "states(" ||
    strContains value "is_state("

/-! ## The template scanner: `extract_entities_from_template`

`re.findall` scans left to right, trying a match at every position and
resuming after the end of each match.  The seven patterns of the source are
of two shapes: a literal prefix ending in a quote, a non-empty capture of
non-quote characters, the closing quote and a literal suffix (empty or a
closing parenthesis); and the dotted form
`states\.([a-zA-Z_][a-zA-Z0-9_]*\.[a-zA-Z_][a-zA-Z0-9_]*)`. -/

/-- Strip the literal `pre` from the front of `s`. -/
def stripLit (pre : List Char) (s : List Char) : Option (List Char) :=
  match pre, s with
  | [], rest => some rest
  | _ :: _, [] => none
  | p :: ps, c :: cs => if p == c then stripLit ps cs else none

/-- One attempted match of a quoted pattern at the head of `s`: literal
`pre` (which ends with the opening quote), a non-empty capture `[^q]+`, the
quote `q`, then the literal `suf`.  Returns the capture and the rest of the
input after the match. -/
def tryQuoted (pre : List Char) (q : Char) (suf : List Char) (s : List Char) :
    Option (List Char × List Char) :=
  match stripLit pre s with
  | none => none
  | some s1 =>
    let cap := s1.takeWhile (fun c => c != q)
    match s1.dropWhile (fun c => c != q) with
    | [] => none
    | _ :: s3 =>
      if cap.isEmpty then none
      else
        match stripLit suf s3 with
        | none => none
        | some s4 => some (cap, s4)

/-- `re.findall` for a quoted pattern: try a match at every position, resume
after each match.  `fuel` bounds the scan (the input length suffices). -/
def findQuoted (pre : List Char) (q : Char) (suf : List Char) :
    Nat → List Char → List String
  | 0, _ => []
  | _ + 1, [] => []
  | fuel + 1, c :: cs =>
    match tryQuoted pre q suf (c :: cs) with
    | some (cap, rest) => String.mk cap :: findQuoted pre q suf fuel rest
    | none => findQuoted pre q suf fuel cs

/-- First character of `[a-zA-Z_][a-zA-Z0-9_]*`. -/
def isIdentStart (c : Char) : Bool :=
  ('a' ≤ c && c ≤ 'z') || ('A' ≤ c && c ≤ 'Z') || c == '_'

/-- Continuation character of `[a-zA-Z_][a-zA-Z0-9_]*`. -/
def isIdentChar (c : Char) : Bool :=
  isIdentStart c || ('0' ≤ c && c ≤ '9')

/-- Match `[a-zA-Z_][a-zA-Z0-9_]*` greedily at the head of `s`. -/
def tryIdent (s : List Char) : Option (List Char × List Char) :=
  match s with
  | [] => none
  | c :: cs =>
    if isIdentStart c then some (c :: cs.takeWhile isIdentChar, cs.dropWhile isIdentChar)
    else none

/-- One attempted match of the dotted pattern
`states\.([a-zA-Z_][a-zA-Z0-9_]*\.[a-zA-Z_][a-zA-Z0-9_]*)` at the head. -/
def tryDotted (s : List Char) : Option (List Char × List Char) :=
  match stripLit "states.".toList s with
  | none => none
  | some s1 =>
    match tryIdent s1 with
    | none => none
    | some (id1, s2) =>
      match s2 with
      | c :: s3 =>
        if c == '.' then
          match tryIdent s3 with
          | none => none
          | some (id2, s4) => some (id1 ++ '.' :: id2, s4)
        else none
      | [] => none

/-- `re.findall` for the dotted pattern. -/
def findDotted : Nat → List Char → List String
  | 0, _ => []
  | _ + 1, [] => []
  | fuel + 1, c :: cs =>
    match tryDotted (c :: cs) with
    | some (cap, rest) => String.mk cap :: findDotted fuel rest
    | none => findDotted fuel cs

/-- Python's `match.split(".")`: split a character list at every dot. -/
def splitChar (sep : Char) : List Char → List (List Char)
  | [] => [[]]
  | c :: tl =>
    let r := splitChar sep tl
    if c == sep then [] :: r
    else
      match r with
      | h :: t => (c :: h) :: t
      | [] => [[c]]

/-- The filter the source applies to every capture:
`"." in match and len(match.split(".")) == 2`. -/
def templateCaptureOk (m : String) : Bool :=
  m.toList.contains '.' && (splitChar '.' m.toList).length == 2

/-- `extract_entities_from_template`: run the seven patterns, in the order the
source lists them, over the template, and keep the captures that pass
`templateCaptureOk`.  The result is a set; we keep the first occurrence of
each member. -/
def extract_entities_from_template (template : String) : List String :=
  let t := template.toList
  let n := t.length
  let raw :=
    findQuoted "states('".toList '\'' [')'] n t ++
    findQuoted "states(\"".toList '"' [')'] n t ++
    findDotted n t ++
    findQuoted "is_state('".toList '\'' [] n t ++
    findQuoted "is_state(\"".toList '"' [] n t ++
    findQuoted "state_attr('".toList '\'' [] n t ++
    findQuoted "state_attr(\"".toList '"' [] n t
  (raw.filter templateCaptureOk).dedup

/-! ## The extraction walks -/

/-- The keys of the plain-entity branch. -/
def entityKeyNames : List String := ["entity_id", "entity_ids", "entities"]

/-- The keys of the device branch. -/
def deviceKeyNames : List String := ["device_id", "device_ids"]

/-- The keys of the area branch. -/
def areaKeyNames : List String := ["area_id", "area_ids"]

/-- The filter on a plain entity value:
`not value.startswith("!") and not self.is_uuid_format(value)`. -/
def keepPlainEntity (s : String) : Bool :=
  !("!".toList.isPrefixOf s.toList) && !(is_uuid_format s)

/-- The filter on a device/area value: `not value.startswith("!")`. -/
def keepTagFree (s : String) : Bool :=
  !("!".toList.isPrefixOf s.toList)

/-- The per-element filter the source applies to a list value under an
entity key: keep string elements passing `keepPlainEntity`. -/
def entityListItems : Yaml → List String
  | .seqCons (.str s) tl =>
    (if keepPlainEntity s then [s] else []) ++ entityListItems tl
  | .seqCons _ tl => entityListItems tl
  | _ => []

/-- The per-element filter under a device/area key: keep string elements not
starting with `"!"`. -/
def tagFreeListItems : Yaml → List String
  | .seqCons (.str s) tl =>
    (if keepTagFree s then [s] else []) ++ tagFreeListItems tl
  | .seqCons _ tl => tagFreeListItems tl
  | _ => []

/-- `extract_entity_references`: the recursive walk of the source.  At a dict
item: an entity key takes a filtered string or filtered string-list; device
and area keys are passed over; `data` with a dict value is recursed into; any
other string value containing a template call marker goes to the template
scanner; everything else is recursed into.  Lists are walked elementwise. -/
def extract_entity_references : Yaml → List String
  | .mapCons key val tl =>
    (if entityKeyNames.contains key then
      match val with
      | .str s => if keepPlainEntity s then [s] else []
      | .seqNil => []
      | .seqCons a b => entityListItems (.seqCons a b)
      | _ => []
    else if deviceKeyNames.contains key then []
    else if areaKeyNames.contains key then []
    else if key == "data" && val.isDict then extract_entity_references val
    else
      match val with
      | .str s => if hasTemplateCall s then extract_entities_from_template s else []
      | v => extract_entity_references v) ++
    extract_entity_references tl
  | .seqCons hd tl => extract_entity_references hd ++ extract_entity_references tl
  | _ => []

/-- `extract_entity_registry_ids`: the independent walk that collects, at any
depth, the string values of `entity_id` keys that satisfy `is_uuid_format`. -/
def extract_entity_registry_ids : Yaml → List String
  | .mapCons key val tl =>
    (if key == "entity_id" then
      match val with
      | .str s => if is_uuid_format s then [s] else []
      | v => extract_entity_registry_ids v
    else extract_entity_registry_ids val) ++
    extract_entity_registry_ids tl
  | .seqCons hd tl =>
    extract_entity_registry_ids hd ++ extract_entity_registry_ids tl
  | _ => []

/-- `extract_device_references`: collect string values (or string list
elements) of device keys, filtered only by the `"!"` tag check. -/
def extract_device_references : Yaml → List String
  | .mapCons key val tl =>
    (if deviceKeyNames.contains key then
      match val with
      | .str s => if keepTagFree s then [s] else []
      | .seqNil => []
      | .seqCons a b => tagFreeListItems (.seqCons a b)
      | _ => []
    else extract_device_references val) ++
    extract_device_references tl
  | .seqCons hd tl => extract_device_references hd ++ extract_device_references tl
  | _ => []

/-- `extract_area_references`: same shape as the device walk, for area keys. -/
def extract_area_references : Yaml → List String
  | .mapCons key val tl =>
    (if areaKeyNames.contains key then
      match val with
      | .str s => if keepTagFree s then [s] else []
      | .seqNil => []
      | .seqCons a b => tagFreeListItems (.seqCons a b)
      | _ => []
    else extract_area_references val) ++
    extract_area_references tl
  | .seqCons hd tl => extract_area_references hd ++ extract_area_references tl
  | _ => []

/-! ## Registry records and Python dicts

Only the fields the validator reads are modelled: `entity_id`, the optional
`id` (the registry id) and `disabled_by` of an entity record, and the `id`
of device and area records. -/

/-- One record of `core.entity_registry`'s `data.entities`. -/
structure EntityRecord where
  entity_id : String
  id : Option String
  disabled_by : Option String
deriving DecidableEq, Repr

/-- One record of `core.device_registry`'s `data.devices`. -/
structure DeviceRecord where
  id : String
deriving DecidableEq, Repr

/-- One record of `core.area_registry`'s `data.areas`. -/
structure AreaRecord where
  id : String
deriving DecidableEq, Repr

/-- A Python dict keyed by strings, as an association list in insertion
order. -/
def Dict (α : Type) : Type := List (String × α)

/-- Python dict assignment `d[k] = v`: replace in place, else append. -/
def dictInsert {α : Type} (k : String) (v : α) : Dict α → Dict α
  | [] => [(k, v)]
  | (k', v') :: tl => if k' == k then (k, v) :: tl else (k', v') :: dictInsert k v tl

/-- Python dict read `d[k]` / `d.get(k)`. -/
def dictLookup {α : Type} (k : String) : Dict α → Option α
  | [] => none
  | (k', v) :: tl => if k' == k then some v else dictLookup k tl

/-- Python's `k in d`. -/
def dictContains {α : Type} (k : String) (d : Dict α) : Bool :=
  (dictLookup k d).isSome

/-- Python's `d.values()`, in insertion order. -/
def dictValues {α : Type} (d : Dict α) : List α :=
  d.map Prod.snd

/-- A dict comprehension `{key(x): x for x in xs}`. -/
def buildDict {α : Type} (key : α → String) (xs : List α) : Dict α :=
  xs.foldl (fun d x => dictInsert (key x) x d) []

/-! ## The filesystem and the validator state -/

/-- What the loaders can read: for each registry snapshot, `none` when the
file is absent, `some (.error e)` when opening or parsing raises, and
`some (.ok records)` when it parses. -/
structure Storage where
  configDir : String
  entityRegistryFile : Option (Except String (List EntityRecord))
  deviceRegistryFile : Option (Except String (List DeviceRecord))
  areaRegistryFile : Option (Except String (List AreaRecord))

/-- `self.storage_dir / name`. -/
def storagePath (env : Storage) (name : String) : String :=
  env.configDir ++ "/.storage/" ++ name

/-- The mutable fields of a `ReferenceValidator` instance: the accumulated
message lists and the three lazily initialized registry caches. -/
structure VState where
  errors : List String
  warnings : List String
  entitiesCache : Option (Dict EntityRecord)
  devicesCache : Option (Dict DeviceRecord)
  areasCache : Option (Dict AreaRecord)

/-- A freshly constructed validator. -/
def initState : VState :=
  { errors := [], warnings := [], entitiesCache := none,
    devicesCache := none, areasCache := none }

/-! ## The registry loaders -/

/-- `load_entity_registry`: return the cache when set; otherwise report a
missing or unreadable snapshot (an error, the cache stays unset) or build
and cache the dict keyed by `entity_id`. -/
def load_entity_registry (env : Storage) (st : VState) : Dict EntityRecord × VState :=
  match st.entitiesCache with
  | some d => (d, st)
  | none =>
    match env.entityRegistryFile with
    | none =>
      ([], { st with errors := st.errors ++
        ["Entity registry not found: " ++ storagePath env "core.entity_registry"] })
    | some (.error e) =>
      ([], { st with errors := st.errors ++ ["Failed to load entity registry: " ++ e] })
    | some (.ok recs) =>
      let d := buildDict EntityRecord.entity_id recs
      (d, { st with entitiesCache := some d })

/-- `load_device_registry`, keyed by `id`. -/
def load_device_registry (env : Storage) (st : VState) : Dict DeviceRecord × VState :=
  match st.devicesCache with
  | some d => (d, st)
  | none =>
    match env.deviceRegistryFile with
    | none =>
      ([], { st with errors := st.errors ++
        ["Device registry not found: " ++ storagePath env "core.device_registry"] })
    | some (.error e) =>
      ([], { st with errors := st.errors ++ ["Failed to load device registry: " ++ e] })
    | some (.ok recs) =>
      let d := buildDict DeviceRecord.id recs
      (d, { st with devicesCache := some d })

/-- `load_area_registry`, keyed by `id`; its failures are warnings. -/
def load_area_registry (env : Storage) (st : VState) : Dict AreaRecord × VState :=
  match st.areasCache with
  | some d => (d, st)
  | none =>
    match env.areaRegistryFile with
    | none =>
      ([], { st with warnings := st.warnings ++
        ["Area registry not found: " ++ storagePath env "core.area_registry"] })
    | some (.error e) =>
      ([], { st with warnings := st.warnings ++ ["Failed to load area registry: " ++ e] })
    | some (.ok recs) =>
      let d := buildDict AreaRecord.id recs
      (d, { st with areasCache := some d })

/-- One step of the comprehension inside `get_entity_registry_id_mapping`:
records carrying an `id` are keyed by it, the others are skipped. -/
def idMapStep (m : Dict String) (e : EntityRecord) : Dict String :=
  match e.id with
  | some i => dictInsert i e.entity_id m
  | none => m

/-- The comprehension inside `get_entity_registry_id_mapping`:
`{e["id"]: e["entity_id"] for e in entities.values() if "id" in e}`. -/
def buildIdMapping (entities : Dict EntityRecord) : Dict String :=
  (dictValues entities).foldl idMapStep []

/-- `get_entity_registry_id_mapping`: load (or reuse) the entity registry and
derive the registry-id → entity-id dict. -/
def get_entity_registry_id_mapping (env : Storage) (st : VState) : Dict String × VState :=
  match load_entity_registry env st with
  | (entities, st1) => (buildIdMapping entities, st1)

/-! ## `validate_file_references` -/

/-- `{e["entity_id"]: e for e in entities.values() if e.get("disabled_by") is not None}`,
built inside the plain-entity loop. -/
def disabledEntitiesDict (entities : Dict EntityRecord) : Dict EntityRecord :=
  buildDict EntityRecord.entity_id
    ((dictValues entities).filter (fun e => e.disabled_by.isSome))

/-- One step of the plain-entity loop of `validate_file_references`. -/
def checkEntityRef (fp : String) (entities : Dict EntityRecord)
    (acc : VState × Bool) (entity_id : String) : VState × Bool :=
  if is_uuid_format entity_id then acc
  else if dictContains entity_id entities then acc
  else if dictContains entity_id (disabledEntitiesDict entities) then
    ({ acc.1 with warnings := acc.1.warnings ++
      [fp ++ ": References disabled entity '" ++ entity_id ++ "'"] }, acc.2)
  else
    ({ acc.1 with errors := acc.1.errors ++
      [fp ++ ": Unknown entity '" ++ entity_id ++ "'"] }, false)

/-- One step of the registry-id loop of `validate_file_references`. -/
def checkRegistryId (fp : String) (entities : Dict EntityRecord)
    (mapping : Dict String) (acc : VState × Bool) (registry_id : String) :
    VState × Bool :=
  match dictLookup registry_id mapping with
  | none =>
    ({ acc.1 with errors := acc.1.errors ++
      [fp ++ ": Unknown entity registry ID '" ++ registry_id ++ "'"] }, false)
  | some actual_entity_id =>
    match dictLookup actual_entity_id entities with
    | some entity_data =>
      if entity_data.disabled_by.isSome then
        ({ acc.1 with warnings := acc.1.warnings ++
          [fp ++ ": Entity registry ID '" ++ registry_id ++
            "' references disabled entity '" ++ actual_entity_id ++ "'"] }, acc.2)
      else acc
    | none => acc

/-- One step of the device loop of `validate_file_references`. -/
def checkDeviceRef (fp : String) (devices : Dict DeviceRecord)
    (acc : VState × Bool) (device_id : String) : VState × Bool :=
  if dictContains device_id devices then acc
  else
    ({ acc.1 with errors := acc.1.errors ++
      [fp ++ ": Unknown device '" ++ device_id ++ "'"] }, false)

/-- One step of the area loop of `validate_file_references`; never touches
the verdict. -/
def checkAreaRef (fp : String) (areas : Dict AreaRecord)
    (acc : VState × Bool) (area_id : String) : VState × Bool :=
  if dictContains area_id areas then acc
  else
    ({ acc.1 with warnings := acc.1.warnings ++
      [fp ++ ": Unknown area '" ++ area_id ++ "'"] }, acc.2)

/-- The input `validate_file_references` receives for one file: the file's
base name (checked against `secrets.yaml`), the path string used in
messages, and the outcome of `yaml.load` (`.error` when opening or parsing
raises, `.ok none` for an empty document). -/
structure FileInput where
  name : String
  path : String
  content : Except String (Option Yaml)

/-- `validate_file_references`: skip the secrets file; report a parse
failure; accept an empty document; otherwise extract the four reference
sets, load the registries and the registry-id mapping, and run the four
check loops.  Returns the verdict and the updated validator state. -/
def validate_file_references (env : Storage) (st : VState) (file : FileInput) :
    Bool × VState :=
  if file.name == "secrets.yaml" then (true, st)
  else
    match file.content with
    | .error e =>
      (false, { st with errors := st.errors ++
        [file.path ++ ": Failed to load YAML - " ++ e] })
    | .ok none => (true, st)
    | .ok (some data) =>
      let entity_refs := (extract_entity_references data).dedup
      let device_refs := (extract_device_references data).dedup
      let area_refs := (extract_area_references data).dedup
      let entity_registry_ids := (extract_entity_registry_ids data).dedup
      match load_entity_registry env st with
      | (entities, st1) =>
      match load_device_registry env st1 with
      | (devices, st2) =>
      match load_area_registry env st2 with
      | (areas, st3) =>
      match get_entity_registry_id_mapping env st3 with
      | (entity_id_mapping, st4) =>
      let acc1 := entity_refs.foldl (checkEntityRef file.path entities) (st4, true)
      let acc2 := entity_registry_ids.foldl
        (checkRegistryId file.path entities entity_id_mapping) acc1
      let acc3 := device_refs.foldl (checkDeviceRef file.path devices) acc2
      let acc4 := area_refs.foldl (checkAreaRef file.path areas) acc3
      (acc4.2, acc4.1)

/-! ## Closed forms of the four check loops

For the proofs we name, for each loop, the condition under which an element
produces an error or a warning and the exact message text; the fold lemmas
below show each loop equal to appending these messages and conjoining the
error conditions' negations onto the verdict. -/

/-- A plain entity reference that reaches the error branch: not UUID-shaped,
absent from the registry dict and absent from the disabled-entities dict. -/
def entityRefIsError (entities : Dict EntityRecord) (e : String) : Bool :=
  !is_uuid_format e && !dictContains e entities &&
    !dictContains e (disabledEntitiesDict entities)

/-- A plain entity reference that reaches the disabled-warning branch. -/
def entityRefIsWarn (entities : Dict EntityRecord) (e : String) : Bool :=
  !is_uuid_format e && !dictContains e entities &&
    dictContains e (disabledEntitiesDict entities)

/-- `f"{file_path}: Unknown entity '{entity_id}'"`. -/
def unknownEntityMsg (fp e : String) : String :=
  fp ++ ": Unknown entity '" ++ e ++ "'"

/-- `f"{file_path}: References disabled entity '{entity_id}'"`. -/
def disabledEntityMsg (fp e : String) : String :=
  fp ++ ": References disabled entity '" ++ e ++ "'"

/-- A registry id absent from the registry-id → entity-id mapping. -/
def ridIsError (mapping : Dict String) (r : String) : Bool :=
  (dictLookup r mapping).isNone

/-- A registry id that resolves to an entity recorded as disabled. -/
def ridIsWarn (entities : Dict EntityRecord) (mapping : Dict String)
    (r : String) : Bool :=
  match dictLookup r mapping with
  | none => false
  | some a =>
    match dictLookup a entities with
    | some entity_data => entity_data.disabled_by.isSome
    | none => false

/-- `f"{file_path}: Unknown entity registry ID '{registry_id}'"`. -/
def unknownRidMsg (fp r : String) : String :=
  fp ++ ": Unknown entity registry ID '" ++ r ++ "'"

/-- The disabled-entity warning of the registry-id loop. -/
def disabledRidMsg (fp : String) (mapping : Dict String) (r : String) : String :=
  fp ++ ": Entity registry ID '" ++ r ++ "' references disabled entity '" ++
    (dictLookup r mapping).getD "" ++ "'"

/-- A device id absent from the device registry dict. -/
def devIsError (devices : Dict DeviceRecord) (d : String) : Bool :=
  !dictContains d devices

/-- `f"{file_path}: Unknown device '{device_id}'"`. -/
def unknownDeviceMsg (fp d : String) : String :=
  fp ++ ": Unknown device '" ++ d ++ "'"

/-- An area id absent from the area registry dict. -/
def areaIsWarn (areas : Dict AreaRecord) (a : String) : Bool :=
  !dictContains a areas

/-- `f"{file_path}: Unknown area '{area_id}'"`. -/
def unknownAreaMsg (fp a : String) : String :=
  fp ++ ": Unknown area '" ++ a ++ "'"

/-- The errors the plain-entity loop appends. -/
def entErrsOf (fp : String) (entities : Dict EntityRecord) (refs : List String) :
    List String :=
  (refs.filter (entityRefIsError entities)).map (unknownEntityMsg fp)

/-- The warnings the plain-entity loop appends. -/
def entWarnsOf (fp : String) (entities : Dict EntityRecord) (refs : List String) :
    List String :=
  (refs.filter (entityRefIsWarn entities)).map (disabledEntityMsg fp)

/-- The errors the registry-id loop appends. -/
def ridErrsOf (fp : String) (mapping : Dict String) (rids : List String) :
    List String :=
  (rids.filter (ridIsError mapping)).map (unknownRidMsg fp)

/-- The warnings the registry-id loop appends. -/
def ridWarnsOf (fp : String) (entities : Dict EntityRecord) (mapping : Dict String)
    (rids : List String) : List String :=
  (rids.filter (ridIsWarn entities mapping)).map (disabledRidMsg fp mapping)

/-- The errors the device loop appends. -/
def devErrsOf (fp : String) (devices : Dict DeviceRecord) (drefs : List String) :
    List String :=
  (drefs.filter (devIsError devices)).map (unknownDeviceMsg fp)

/-- The warnings the area loop appends. -/
def areaWarnsOf (fp : String) (areas : Dict AreaRecord) (arefs : List String) :
    List String :=
  (arefs.filter (areaIsWarn areas)).map (unknownAreaMsg fp)

/-! ## Closed forms of the lazy loaders -/

/-- The dict `load_entity_registry` returns, as a function of the cache field
and the filesystem. -/
def entitiesFor (env : Storage) : Option (Dict EntityRecord) → Dict EntityRecord
  | some d => d
  | none =>
    match env.entityRegistryFile with
    | some (.ok recs) => buildDict EntityRecord.entity_id recs
    | _ => []

/-- The cache field after `load_entity_registry`: set only on a successful
load, so a missing or unreadable snapshot is re-attempted by every call. -/
def entCacheAfter (env : Storage) :
    Option (Dict EntityRecord) → Option (Dict EntityRecord)
  | some d => some d
  | none =>
    match env.entityRegistryFile with
    | some (.ok recs) => some (buildDict EntityRecord.entity_id recs)
    | _ => none

/-- The errors one `load_entity_registry` call appends. -/
def entLoadMsgs (env : Storage) : Option (Dict EntityRecord) → List String
  | some _ => []
  | none =>
    match env.entityRegistryFile with
    | none => ["Entity registry not found: " ++ storagePath env "core.entity_registry"]
    | some (.error e) => ["Failed to load entity registry: " ++ e]
    | some (.ok _) => []

/-- The dict `load_device_registry` returns. -/
def devicesFor (env : Storage) : Option (Dict DeviceRecord) → Dict DeviceRecord
  | some d => d
  | none =>
    match env.deviceRegistryFile with
    | some (.ok recs) => buildDict DeviceRecord.id recs
    | _ => []

/-- The cache field after `load_device_registry`. -/
def devCacheAfter (env : Storage) :
    Option (Dict DeviceRecord) → Option (Dict DeviceRecord)
  | some d => some d
  | none =>
    match env.deviceRegistryFile with
    | some (.ok recs) => some (buildDict DeviceRecord.id recs)
    | _ => none

/-- The errors one `load_device_registry` call appends. -/
def devLoadMsgs (env : Storage) : Option (Dict DeviceRecord) → List String
  | some _ => []
  | none =>
    match env.deviceRegistryFile with
    | none => ["Device registry not found: " ++ storagePath env "core.device_registry"]
    | some (.error e) => ["Failed to load device registry: " ++ e]
    | some (.ok _) => []

/-- The dict `load_area_registry` returns. -/
def areasFor (env : Storage) : Option (Dict AreaRecord) → Dict AreaRecord
  | some d => d
  | none =>
    match env.areaRegistryFile with
    | some (.ok recs) => buildDict AreaRecord.id recs
    | _ => []

/-- The cache field after `load_area_registry`. -/
def areaCacheAfter (env : Storage) :
    Option (Dict AreaRecord) → Option (Dict AreaRecord)
  | some d => some d
  | none =>
    match env.areaRegistryFile with
    | some (.ok recs) => some (buildDict AreaRecord.id recs)
    | _ => none

/-- The warnings one `load_area_registry` call appends. -/
def areaLoadMsgs (env : Storage) : Option (Dict AreaRecord) → List String
  | some _ => []
  | none =>
    match env.areaRegistryFile with
    | none => ["Area registry not found: " ++ storagePath env "core.area_registry"]
    | some (.error e) => ["Failed to load area registry: " ++ e]
    | some (.ok _) => []

/-- The registry-load error messages a single `validate_file_references` call
can append: at most the entity- and device-registry load failures (the
area-registry failure is a warning). -/
def registryLoadErrorPool (env : Storage) : List String :=
  entLoadMsgs env none ++ devLoadMsgs env none

/-! ## Concrete fixtures

Registry contents mirror the mock registries of
`test_reference_validator.py`; documents are the shapes the spec's scenarios
describe. -/

/-- The disabled entity of the test fixture registry. -/
def disabledRec : EntityRecord :=
  { entity_id := "sensor.disabled_sensor",
    id := some "11223344556677889900aabbccddeeff",
    disabled_by := some "user" }

/-- The enabled entity of the test fixture registry. -/
def normalRec : EntityRecord :=
  { entity_id := "sensor.normal_sensor",
    id := some "aabbccddeeff00112233445566778899",
    disabled_by := none }

/-- A filesystem whose three registry snapshots are present and parse. -/
def envReg : Storage :=
  { configDir := "config",
    entityRegistryFile := some (.ok [disabledRec, normalRec]),
    deviceRegistryFile := some (.ok []),
    areaRegistryFile := some (.ok []) }

/-- A filesystem with no registry snapshot at all. -/
def envNone : Storage :=
  { configDir := "config",
    entityRegistryFile := none,
    deviceRegistryFile := none,
    areaRegistryFile := none }

/-- An `entity_ids` list holding the special keyword `"all"`, a template
string and a plain reference. -/
def docSpecialAndTemplate : Yaml :=
  .mapCons "entity_ids"
    (.seqCons (.str "all")
      (.seqCons (.str "\x7b\x7b states('sensor.temperature') \x7d\x7d")
        (.seqCons (.str "binary_sensor.door") .seqNil))) .mapNil

/-- A document whose only reference is a plain `entity_id`. -/
def docPlainRef (e : String) : Yaml :=
  .mapCons "entity_id" (.str e) .mapNil

/-- A document with no references at all. -/
def docNoRefs : Yaml :=
  .mapCons "foo" (.str "bar") .mapNil

/-- A parsed file around a document. -/
def mkFile (doc : Yaml) : FileInput :=
  { name := "automations.yaml", path := "config/automations.yaml",
    content := .ok (some doc) }

/-- 32 `a` characters followed by a newline. -/
def hexThenNewline : String :=
  String.mk (List.replicate 32 'a' ++ ['\n'])

/-! ## Lemmas: the classifier -/

/-- `matchRepeat` succeeds exactly on a prefix of `n` characters of the
class, returning the remainder. -/
lemma matchRepeat_eq_some (cls : Char → Bool) :
    ∀ (n : Nat) (l r : List Char),
      matchRepeat cls n l = some r ↔
        ∃ t, l = t ++ r ∧ t.length = n ∧ ∀ c ∈ t, cls c = true := by
  intro n
  induction n with
  | zero =>
    intro l r
    constructor
    · intro h
      obtain rfl : l = r := by simpa [matchRepeat] using h
      exact ⟨[], rfl, rfl, by simp⟩
    · rintro ⟨t, rfl, hlen, -⟩
      obtain rfl : t = [] := List.length_eq_zero.mp hlen
      simp [matchRepeat]
  | succ n ih =>
    intro l r
    cases l with
    | nil =>
      simp only [matchRepeat]
      constructor
      · intro h; cases h
      · rintro ⟨t, ht, hlen, -⟩
        obtain rfl : t = [] := by
          cases t with
          | nil => rfl
          | cons a b => cases ht
        cases hlen
    | cons c cs =>
      simp only [matchRepeat]
      by_cases hc : cls c = true
      · rw [if_pos hc, ih]
        constructor
        · rintro ⟨t, rfl, rfl, hall⟩
          refine ⟨c :: t, rfl, by simp, ?_⟩
          intro x hx
          rcases List.mem_cons.mp hx with rfl | hx
          · exact hc
          · exact hall x hx
        · rintro ⟨t, ht, hlen, hall⟩
          cases t with
          | nil => cases hlen
          | cons t0 ts =>
            obtain ⟨rfl, hcs⟩ : t0 = c ∧ ts ++ r = cs := by
              have := List.cons.injEq t0 (ts ++ r) c cs ▸ ht.symm
              exact ⟨this.1, this.2⟩
            exact ⟨ts, hcs.symm, by simpa using hlen,
              fun x hx => hall x (List.mem_cons_of_mem _ hx)⟩
      · rw [if_neg hc]
        constructor
        · intro h; cases h
        · rintro ⟨t, ht, hlen, hall⟩
          cases t with
          | nil => cases hlen
          | cons t0 ts =>
            have h0 : t0 = c := by
              have := List.cons.injEq t0 (ts ++ r) c cs ▸ ht.symm
              exact this.1
            exact absurd (h0 ▸ hall t0 (List.mem_cons_self _ _)) hc

/-- `dollarAnchor` accepts exactly the empty rest and a lone newline. -/
lemma dollarAnchor_eq_true (r : List Char) :
    dollarAnchor r = true ↔ r = [] ∨ r = ['\n'] := by
  match r with
  | [] => simp [dollarAnchor]
  | [c] => simp [dollarAnchor]
  | c :: d :: tl => simp [dollarAnchor]

/-- The exact strings `is_uuid_format` accepts: 32 characters of `[a-f0-9]`,
or 32 such characters followed by one final newline (Python's `$` matches
before a trailing newline). -/
lemma is_uuid_format_iff (s : String) :
    is_uuid_format s = true ↔
      ((s.toList.length = 32 ∧ ∀ c ∈ s.toList, isLowerHexChar c = true) ∨
        (∃ t, s.toList = t ++ ['\n'] ∧ t.length = 32 ∧
          ∀ c ∈ t, isLowerHexChar c = true)) := by
  unfold is_uuid_format
  cases h : matchRepeat isLowerHexChar 32 s.toList with
  | none =>
    constructor
    · intro hf; cases hf
    · rintro (⟨hlen, hall⟩ | ⟨t, ht, hlen, hall⟩)
      · have h2 : matchRepeat isLowerHexChar 32 s.toList = some [] :=
          (matchRepeat_eq_some _ _ _ _).mpr ⟨s.toList, by simp, hlen, hall⟩
        rw [h] at h2; cases h2
      · have h2 : matchRepeat isLowerHexChar 32 s.toList = some ['\n'] :=
          (matchRepeat_eq_some _ _ _ _).mpr ⟨t, ht, hlen, hall⟩
        rw [h] at h2; cases h2
  | some rest =>
    rw [dollarAnchor_eq_true]
    obtain ⟨t, ht, hlen, hall⟩ := (matchRepeat_eq_some _ _ _ _).mp h
    constructor
    · rintro (rfl | rfl)
      · exact Or.inl ⟨by rw [ht]; simpa using hlen, by rw [ht]; simpa using hall⟩
      · exact Or.inr ⟨t, ht, hlen, hall⟩
    · rintro (⟨hlen32, -⟩ | ⟨t', ht', hlen', -⟩)
      · left
        have hlen2 : (t ++ rest).length = 32 := by rw [← ht]; exact hlen32
        have hsum : t.length + rest.length = 32 := by simpa using hlen2
        have hr : rest.length = 0 := by omega
        exact List.length_eq_zero.mp hr
      · right
        rw [ht] at ht'
        exact List.append_inj_right ht' (hlen.trans hlen'.symm)

/-- A UUID-shaped string never contains a dot. -/
lemma is_uuid_format_no_dot {s : String} (h : is_uuid_format s = true) :
    '.' ∉ s.toList := by
  intro hmem
  rcases (is_uuid_format_iff s).mp h with ⟨-, hall⟩ | ⟨t, ht, -, hall⟩
  · exact absurd (hall _ hmem) (by decide)
  · rw [ht] at hmem
    rcases List.mem_append.mp hmem with hm | hm
    · exact absurd (hall _ hm) (by decide)
    · simp at hm

/-- A string containing a dot is never UUID-shaped. -/
lemma contains_dot_not_uuid {s : String} (h : '.' ∈ s.toList) :
    is_uuid_format s = false := by
  cases hu : is_uuid_format s
  · rfl
  · exact absurd h (is_uuid_format_no_dot hu)

/-! ## Lemmas: the template scanner -/

/-- Every member of the scanner's result passed the capture filter: it
contains a dot and splits into exactly two dot-separated segments. -/
lemma mem_extract_entities_from_template {t m : String}
    (h : m ∈ extract_entities_from_template t) :
    '.' ∈ m.toList ∧ (splitChar '.' m.toList).length = 2 := by
  simp only [extract_entities_from_template, List.mem_dedup, List.mem_filter] at h
  have h2 := h.2
  unfold templateCaptureOk at h2
  rw [Bool.and_eq_true] at h2
  refine ⟨?_, by simpa using h2.2⟩
  simpa using h2.1

/-- A scanner result is never UUID-shaped (it contains a dot). -/
lemma mem_template_not_uuid {t m : String}
    (h : m ∈ extract_entities_from_template t) :
    is_uuid_format m = false :=
  contains_dot_not_uuid (mem_extract_entities_from_template h).1

/-! ## Lemmas: the extraction walks and the UUID filter -/

/-- Members of a filtered entity list pass `keepPlainEntity`. -/
lemma mem_entityListItems_keep :
    ∀ (v : Yaml) (x : String), x ∈ entityListItems v → keepPlainEntity x = true := by
  intro v
  induction v with
  | seqCons hd tl ihh iht =>
    intro x hx
    cases hd with
    | str s =>
      simp only [entityListItems, List.mem_append] at hx
      rcases hx with hx | hx
      · by_cases hk : keepPlainEntity s = true
        · rw [if_pos hk] at hx
          obtain rfl : x = s := by simpa using hx
          exact hk
        · rw [if_neg hk] at hx
          simp at hx
      · exact iht x hx
    | scalar => exact iht x (by simpa [entityListItems] using hx)
    | seqNil => exact iht x (by simpa [entityListItems] using hx)
    | seqCons a b => exact iht x (by simpa [entityListItems] using hx)
    | mapNil => exact iht x (by simpa [entityListItems] using hx)
    | mapCons k v w => exact iht x (by simpa [entityListItems] using hx)
  | str s => intro x hx; simp [entityListItems] at hx
  | scalar => intro x hx; simp [entityListItems] at hx
  | seqNil => intro x hx; simp [entityListItems] at hx
  | mapNil => intro x hx; simp [entityListItems] at hx
  | mapCons k v w ihv ihw => intro x hx; simp [entityListItems] at hx

/-- `keepPlainEntity` implies the value is not UUID-shaped. -/
lemma keepPlainEntity_not_uuid {s : String} (h : keepPlainEntity s = true) :
    is_uuid_format s = false := by
  unfold keepPlainEntity at h
  rw [Bool.and_eq_true] at h
  simpa using h.2

/-- Nothing the plain-entity walk returns is UUID-shaped: values under the
entity keys are filtered by `is_uuid_format`, and template-scanner results
contain a dot. -/
lemma mem_entity_refs_not_uuid :
    ∀ (d : Yaml) (x : String),
      x ∈ extract_entity_references d → is_uuid_format x = false := by
  intro d
  induction d with
  | str s => intro x hx; simp [extract_entity_references] at hx
  | scalar => intro x hx; simp [extract_entity_references] at hx
  | seqNil => intro x hx; simp [extract_entity_references] at hx
  | mapNil => intro x hx; simp [extract_entity_references] at hx
  | seqCons hd tl ihh iht =>
    intro x hx
    simp only [extract_entity_references, List.mem_append] at hx
    rcases hx with hx | hx
    · exact ihh x hx
    · exact iht x hx
  | mapCons key val tl ihv iht =>
    intro x hx
    cases val
    all_goals
      simp only [extract_entity_references, List.mem_append] at hx
      rcases hx with hx | hx
      all_goals repeat' split at hx
      all_goals
        first
          | exact iht x hx
          | exact ihv x hx
          | exact mem_template_not_uuid hx
          | exact keepPlainEntity_not_uuid (mem_entityListItems_keep _ x hx)
          | (simp only [List.mem_singleton] at hx; subst hx;
             exact keepPlainEntity_not_uuid (by assumption))
          | simp at hx

/-- Everything the registry-id walk returns is UUID-shaped. -/
lemma mem_registry_ids_uuid :
    ∀ (d : Yaml) (x : String),
      x ∈ extract_entity_registry_ids d → is_uuid_format x = true := by
  intro d
  induction d with
  | str s => intro x hx; simp [extract_entity_registry_ids] at hx
  | scalar => intro x hx; simp [extract_entity_registry_ids] at hx
  | seqNil => intro x hx; simp [extract_entity_registry_ids] at hx
  | mapNil => intro x hx; simp [extract_entity_registry_ids] at hx
  | seqCons hd tl ihh iht =>
    intro x hx
    simp only [extract_entity_registry_ids, List.mem_append] at hx
    rcases hx with hx | hx
    · exact ihh x hx
    · exact iht x hx
  | mapCons key val tl ihv iht =>
    intro x hx
    cases val
    all_goals
      simp only [extract_entity_registry_ids, List.mem_append] at hx
      rcases hx with hx | hx
      all_goals repeat' split at hx
      all_goals
        first
          | exact iht x hx
          | exact ihv x hx
          | (simp only [List.mem_singleton] at hx; subst hx; assumption)
          | simp at hx

/-! ## Lemmas: Python dicts and the registry-id mapping -/

/-- Looking up the key just inserted yields the inserted value. -/
lemma dictLookup_dictInsert_self {α : Type} (k : String) (v : α) (d : Dict α) :
    dictLookup k (dictInsert k v d) = some v := by
  induction d with
  | nil => simp [dictInsert, dictLookup]
  | cons kv tl ih =>
    obtain ⟨k', v'⟩ := kv
    by_cases h : (k' == k) = true
    · simp [dictInsert, h, dictLookup]
    · simp only [dictInsert, h, if_false, Bool.false_eq_true]
      simp [dictLookup, h, ih]

/-- Inserting under a different key does not change a lookup. -/
lemma dictLookup_dictInsert_ne {α : Type} {q k : String} (h : q ≠ k) (v : α)
    (d : Dict α) : dictLookup q (dictInsert k v d) = dictLookup q d := by
  induction d with
  | nil =>
    have hk : (k == q) = false := by simpa using (Ne.symm h)
    simp [dictInsert, dictLookup, hk]
  | cons kv tl ih =>
    obtain ⟨k', v'⟩ := kv
    by_cases hk : (k' == k) = true
    · have hkq : (k == q) = false := by simpa using (Ne.symm h)
      have hk'q : (k' == q) = false := by
        have : k' = k := by simpa using hk
        simpa [this] using (Ne.symm h)
      simp [dictInsert, hk, dictLookup, hkq, hk'q]
    · simp only [dictInsert, hk, if_false, Bool.false_eq_true]
      by_cases hq : (k' == q) = true
      · simp [dictLookup, hq]
      · simp [dictLookup, hq, ih]

/-- Records whose `id` never occurs leave a lookup through the mapping fold
unchanged. -/
lemma foldl_idMapStep_not_mem :
    ∀ (l : List EntityRecord) (m : Dict String) (i : String),
      i ∉ l.filterMap EntityRecord.id →
      dictLookup i (l.foldl idMapStep m) = dictLookup i m := by
  intro l
  induction l with
  | nil => intro m i _; rfl
  | cons e es ih =>
    intro m i h
    simp only [List.foldl_cons]
    cases he : e.id with
    | none =>
      have hm : idMapStep m e = m := by simp [idMapStep, he]
      rw [hm]
      exact ih m i (by simpa [List.filterMap_cons, he] using h)
    | some j =>
      have h2 : ¬(i = j ∨ i ∈ es.filterMap EntityRecord.id) := by
        simpa [List.filterMap_cons, he] using h
      push_neg at h2
      have hm : idMapStep m e = dictInsert j e.entity_id m := by
        simp [idMapStep, he]
      rw [hm, ih _ i h2.2, dictLookup_dictInsert_ne h2.1]

/-- With no duplicate registry ids, the mapping fold sends each record's id
to that record's `entity_id`. -/
lemma foldl_idMapStep_mem :
    ∀ (l : List EntityRecord) (m : Dict String) (e : EntityRecord) (i : String),
      (l.filterMap EntityRecord.id).Nodup → e ∈ l → e.id = some i →
      dictLookup i (l.foldl idMapStep m) = some e.entity_id := by
  intro l
  induction l with
  | nil => intro m e i _ hmem _; cases hmem
  | cons v vs ih =>
    intro m e i hnd hmem hid
    simp only [List.foldl_cons]
    rcases List.mem_cons.mp hmem with rfl | hmem
    · have hnd2 : (i :: vs.filterMap EntityRecord.id).Nodup := by
        simpa [List.filterMap_cons, hid] using hnd
      have hni : i ∉ vs.filterMap EntityRecord.id := (List.nodup_cons.mp hnd2).1
      have hm : idMapStep m e = dictInsert i e.entity_id m := by
        simp [idMapStep, hid]
      rw [hm, foldl_idMapStep_not_mem vs _ i hni, dictLookup_dictInsert_self]
    · refine ih _ e i ?_ hmem hid
      cases hv : v.id with
      | none => simpa [List.filterMap_cons, hv] using hnd
      | some j =>
        have : (j :: vs.filterMap EntityRecord.id).Nodup := by
          simpa [List.filterMap_cons, hv] using hnd
        exact (List.nodup_cons.mp this).2

/-- The first component of `get_entity_registry_id_mapping` is
`buildIdMapping` of the loaded registry. -/
lemma get_mapping_fst (env : Storage) (st : VState) :
    (get_entity_registry_id_mapping env st).1 =
      buildIdMapping (load_entity_registry env st).1 := by
  unfold get_entity_registry_id_mapping
  cases hl : load_entity_registry env st
  rfl

/-! ## Lemmas: the loaders in closed form -/

/-- `load_entity_registry`, written as a function of the cache field. -/
lemma load_entity_registry_eq (env : Storage) (st : VState) :
    load_entity_registry env st =
      (entitiesFor env st.entitiesCache,
       { st with errors := st.errors ++ entLoadMsgs env st.entitiesCache,
                 entitiesCache := entCacheAfter env st.entitiesCache }) := by
  obtain ⟨errs, warns, ec, dc, ac⟩ := st
  cases ec with
  | some d => simp [load_entity_registry, entitiesFor, entCacheAfter, entLoadMsgs]
  | none =>
    cases hf : env.entityRegistryFile with
    | none =>
      simp [load_entity_registry, entitiesFor, entCacheAfter, entLoadMsgs, hf]
    | some x =>
      cases x <;>
        simp [load_entity_registry, entitiesFor, entCacheAfter, entLoadMsgs, hf]

/-- `load_device_registry`, written as a function of the cache field. -/
lemma load_device_registry_eq (env : Storage) (st : VState) :
    load_device_registry env st =
      (devicesFor env st.devicesCache,
       { st with errors := st.errors ++ devLoadMsgs env st.devicesCache,
                 devicesCache := devCacheAfter env st.devicesCache }) := by
  obtain ⟨errs, warns, ec, dc, ac⟩ := st
  cases dc with
  | some d => simp [load_device_registry, devicesFor, devCacheAfter, devLoadMsgs]
  | none =>
    cases hf : env.deviceRegistryFile with
    | none =>
      simp [load_device_registry, devicesFor, devCacheAfter, devLoadMsgs, hf]
    | some x =>
      cases x <;>
        simp [load_device_registry, devicesFor, devCacheAfter, devLoadMsgs, hf]

/-- `load_area_registry`, written as a function of the cache field. -/
lemma load_area_registry_eq (env : Storage) (st : VState) :
    load_area_registry env st =
      (areasFor env st.areasCache,
       { st with warnings := st.warnings ++ areaLoadMsgs env st.areasCache,
                 areasCache := areaCacheAfter env st.areasCache }) := by
  obtain ⟨errs, warns, ec, dc, ac⟩ := st
  cases ac with
  | some d => simp [load_area_registry, areasFor, areaCacheAfter, areaLoadMsgs]
  | none =>
    cases hf : env.areaRegistryFile with
    | none =>
      simp [load_area_registry, areasFor, areaCacheAfter, areaLoadMsgs, hf]
    | some x =>
      cases x <;>
        simp [load_area_registry, areasFor, areaCacheAfter, areaLoadMsgs, hf]

/-- `get_entity_registry_id_mapping`, written through the load closed form. -/
lemma get_mapping_eq (env : Storage) (st : VState) :
    get_entity_registry_id_mapping env st =
      (buildIdMapping (entitiesFor env st.entitiesCache),
       { st with errors := st.errors ++ entLoadMsgs env st.entitiesCache,
                 entitiesCache := entCacheAfter env st.entitiesCache }) := by
  unfold get_entity_registry_id_mapping
  rw [load_entity_registry_eq]

/-- A second load sees the same registry dict as the first. -/
lemma entitiesFor_cacheAfter (env : Storage) (c : Option (Dict EntityRecord)) :
    entitiesFor env (entCacheAfter env c) = entitiesFor env c := by
  cases c with
  | some d => rfl
  | none =>
    cases hf : env.entityRegistryFile with
    | none => simp [entitiesFor, entCacheAfter, hf]
    | some x => cases x <;> simp [entitiesFor, entCacheAfter, hf]

/-- Loading twice caches no more than loading once. -/
lemma entCacheAfter_idem (env : Storage) (c : Option (Dict EntityRecord)) :
    entCacheAfter env (entCacheAfter env c) = entCacheAfter env c := by
  cases c with
  | some d => rfl
  | none =>
    cases hf : env.entityRegistryFile with
    | none => simp [entCacheAfter, hf]
    | some x => cases x <;> simp [entCacheAfter, hf]

/-! ## Lemmas: the check loops in closed form -/

/-- Folding a step that appends per-element messages and conjoins a
per-element verdict bit gives appended message joins and an `all`. -/
lemma foldl_msgStep (f : VState × Bool → String → VState × Bool)
    (E W : String → List String) (O : String → Bool)
    (hf : ∀ st ok x, f (st, ok) x =
      ({ st with errors := st.errors ++ E x, warnings := st.warnings ++ W x },
       ok && O x)) :
    ∀ (l : List String) (st : VState) (ok : Bool),
      l.foldl f (st, ok) =
        ({ st with errors := st.errors ++ (l.map E).join,
                   warnings := st.warnings ++ (l.map W).join },
         ok && l.all O) := by
  intro l
  induction l with
  | nil =>
    intro st ok
    simp
  | cons x xs ih =>
    intro st ok
    simp only [List.foldl_cons, hf, ih]
    simp [List.append_assoc, Bool.and_assoc]

/-- The join/filter identity connecting the generic fold to the named
message lists. -/
lemma join_map_ite (p : String → Bool) (g : String → String) (l : List String) :
    (l.map (fun x => if p x then [g x] else [])).join = (l.filter p).map g := by
  induction l with
  | nil => rfl
  | cons x xs ih =>
    by_cases h : p x = true <;> simp [List.filter_cons, h, ih]

/-- The plain-entity step in append/conjoin form. -/
lemma checkEntityRef_eq (fp : String) (entities : Dict EntityRecord)
    (st : VState) (ok : Bool) (e : String) :
    checkEntityRef fp entities (st, ok) e =
      ({ st with
          errors := st.errors ++
            (if entityRefIsError entities e then [unknownEntityMsg fp e] else []),
          warnings := st.warnings ++
            (if entityRefIsWarn entities e then [disabledEntityMsg fp e] else []) },
       ok && !entityRefIsError entities e) := by
  obtain ⟨errs, warns, ec, dc, ac⟩ := st
  unfold checkEntityRef entityRefIsError entityRefIsWarn unknownEntityMsg disabledEntityMsg
  by_cases h1 : is_uuid_format e = true
  · simp [h1]
  · by_cases h2 : dictContains e entities = true
    · simp [h1, h2]
    · by_cases h3 : dictContains e (disabledEntitiesDict entities) = true
      · simp [h1, h2, h3]
      · simp [h1, h2, h3]

/-- The registry-id step in append/conjoin form. -/
lemma checkRegistryId_eq (fp : String) (entities : Dict EntityRecord)
    (mapping : Dict String) (st : VState) (ok : Bool) (r : String) :
    checkRegistryId fp entities mapping (st, ok) r =
      ({ st with
          errors := st.errors ++
            (if ridIsError mapping r then [unknownRidMsg fp r] else []),
          warnings := st.warnings ++
            (if ridIsWarn entities mapping r then [disabledRidMsg fp mapping r] else []) },
       ok && !ridIsError mapping r) := by
  obtain ⟨errs, warns, ec, dc, ac⟩ := st
  unfold checkRegistryId ridIsError ridIsWarn unknownRidMsg disabledRidMsg
  cases hm : dictLookup r mapping with
  | none => simp [hm]
  | some a =>
    cases he : dictLookup a entities with
    | none => simp [hm, he]
    | some ed =>
      by_cases hd : ed.disabled_by.isSome = true
      · simp [hm, he, hd]
      · simp [hm, he, hd]

/-- The device step in append/conjoin form. -/
lemma checkDeviceRef_eq (fp : String) (devices : Dict DeviceRecord)
    (st : VState) (ok : Bool) (d : String) :
    checkDeviceRef fp devices (st, ok) d =
      ({ st with
          errors := st.errors ++
            (if devIsError devices d then [unknownDeviceMsg fp d] else []),
          warnings := st.warnings ++ ([] : List String) },
       ok && !devIsError devices d) := by
  obtain ⟨errs, warns, ec, dc, ac⟩ := st
  unfold checkDeviceRef devIsError unknownDeviceMsg
  by_cases h : dictContains d devices = true <;> simp [h]

/-- The area step in append/conjoin form; the verdict bit is untouched. -/
lemma checkAreaRef_eq (fp : String) (areas : Dict AreaRecord)
    (st : VState) (ok : Bool) (a : String) :
    checkAreaRef fp areas (st, ok) a =
      ({ st with
          errors := st.errors ++ ([] : List String),
          warnings := st.warnings ++
            (if areaIsWarn areas a then [unknownAreaMsg fp a] else []) },
       ok && true) := by
  obtain ⟨errs, warns, ec, dc, ac⟩ := st
  unfold checkAreaRef areaIsWarn unknownAreaMsg
  by_cases h : dictContains a areas = true <;> simp [h]

/-- The plain-entity loop in closed form. -/
lemma foldl_checkEntityRef (fp : String) (entities : Dict EntityRecord)
    (l : List String) (st : VState) (ok : Bool) :
    l.foldl (checkEntityRef fp entities) (st, ok) =
      ({ st with errors := st.errors ++ entErrsOf fp entities l,
                 warnings := st.warnings ++ entWarnsOf fp entities l },
       ok && l.all (fun e => !entityRefIsError entities e)) := by
  have h := foldl_msgStep (checkEntityRef fp entities)
    (fun e => if entityRefIsError entities e then [unknownEntityMsg fp e] else [])
    (fun e => if entityRefIsWarn entities e then [disabledEntityMsg fp e] else [])
    (fun e => !entityRefIsError entities e)
    (checkEntityRef_eq fp entities) l st ok
  rw [h, entErrsOf, entWarnsOf, ← join_map_ite, ← join_map_ite]

/-- The registry-id loop in closed form. -/
lemma foldl_checkRegistryId (fp : String) (entities : Dict EntityRecord)
    (mapping : Dict String) (l : List String) (st : VState) (ok : Bool) :
    l.foldl (checkRegistryId fp entities mapping) (st, ok) =
      ({ st with errors := st.errors ++ ridErrsOf fp mapping l,
                 warnings := st.warnings ++ ridWarnsOf fp entities mapping l },
       ok && l.all (fun r => !ridIsError mapping r)) := by
  have h := foldl_msgStep (checkRegistryId fp entities mapping)
    (fun r => if ridIsError mapping r then [unknownRidMsg fp r] else [])
    (fun r => if ridIsWarn entities mapping r then [disabledRidMsg fp mapping r] else [])
    (fun r => !ridIsError mapping r)
    (checkRegistryId_eq fp entities mapping) l st ok
  rw [h, ridErrsOf, ridWarnsOf, ← join_map_ite, ← join_map_ite]

/-- The device loop in closed form. -/
lemma foldl_checkDeviceRef (fp : String) (devices : Dict DeviceRecord)
    (l : List String) (st : VState) (ok : Bool) :
    l.foldl (checkDeviceRef fp devices) (st, ok) =
      ({ st with errors := st.errors ++ devErrsOf fp devices l },
       ok && l.all (fun d => !devIsError devices d)) := by
  have h := foldl_msgStep (checkDeviceRef fp devices)
    (fun d => if devIsError devices d then [unknownDeviceMsg fp d] else [])
    (fun _ => [])
    (fun d => !devIsError devices d)
    (checkDeviceRef_eq fp devices) l st ok
  rw [h, devErrsOf, ← join_map_ite]
  simp

/-- The area loop in closed form: warnings only, verdict untouched. -/
lemma foldl_checkAreaRef (fp : String) (areas : Dict AreaRecord)
    (l : List String) (st : VState) (ok : Bool) :
    l.foldl (checkAreaRef fp areas) (st, ok) =
      ({ st with warnings := st.warnings ++ areaWarnsOf fp areas l }, ok) := by
  have h := foldl_msgStep (checkAreaRef fp areas)
    (fun _ => [])
    (fun a => if areaIsWarn areas a then [unknownAreaMsg fp a] else [])
    (fun _ => true)
    (checkAreaRef_eq fp areas) l st ok
  rw [h, areaWarnsOf, ← join_map_ite]
  simp

/-- `validate_file_references` on a parsed, non-secrets document, in closed
form: the verdict is the conjunction of the three error-free checks, and the
message lists grow by the load messages and the per-loop messages. -/
lemma validate_spec (env : Storage) (st : VState) (nm path : String) (data : Yaml)
    (hn : (nm == "secrets.yaml") = false) :
    validate_file_references env st ⟨nm, path, Except.ok (some data)⟩ =
      (((extract_entity_references data).dedup.all
          (fun e => !entityRefIsError (entitiesFor env st.entitiesCache) e) &&
        (extract_entity_registry_ids data).dedup.all
          (fun r => !ridIsError (buildIdMapping (entitiesFor env st.entitiesCache)) r) &&
        (extract_device_references data).dedup.all
          (fun v => !devIsError (devicesFor env st.devicesCache) v),
       { errors := st.errors ++ entLoadMsgs env st.entitiesCache
           ++ devLoadMsgs env st.devicesCache
           ++ entLoadMsgs env (entCacheAfter env st.entitiesCache)
           ++ entErrsOf path (entitiesFor env st.entitiesCache)
                (extract_entity_references data).dedup
           ++ ridErrsOf path (buildIdMapping (entitiesFor env st.entitiesCache))
                (extract_entity_registry_ids data).dedup
           ++ devErrsOf path (devicesFor env st.devicesCache)
                (extract_device_references data).dedup,
         warnings := st.warnings ++ areaLoadMsgs env st.areasCache
           ++ entWarnsOf path (entitiesFor env st.entitiesCache)
                (extract_entity_references data).dedup
           ++ ridWarnsOf path (entitiesFor env st.entitiesCache)
                (buildIdMapping (entitiesFor env st.entitiesCache))
                (extract_entity_registry_ids data).dedup
           ++ areaWarnsOf path (areasFor env st.areasCache)
                (extract_area_references data).dedup,
         entitiesCache := entCacheAfter env st.entitiesCache,
         devicesCache := devCacheAfter env st.devicesCache,
         areasCache := areaCacheAfter env st.areasCache })) := by
  unfold validate_file_references
  simp only [hn, Bool.false_eq_true, if_false]
  simp only [load_entity_registry_eq, load_device_registry_eq, load_area_registry_eq,
    get_mapping_eq]
  simp only [foldl_checkEntityRef, foldl_checkRegistryId, foldl_checkDeviceRef,
    foldl_checkAreaRef]
  simp [entitiesFor_cacheAfter, entCacheAfter_idem, List.append_assoc, Bool.and_assoc]

/-- C3: an extracted registry id absent from the registry-id mapping yields
the "Unknown entity registry ID" error and a false verdict; one that maps to
a disabled entity yields the disabled-entity warning, and when no
error-producing reference is present the file remains valid. -/
theorem c3_registry_id_checks (env : Storage) (st : VState) (nm path : String)
    (data : Yaml) (rid : String)
    (hn : (nm == "secrets.yaml") = false)
    (hrid : rid ∈ extract_entity_registry_ids data) :
    (dictLookup rid (buildIdMapping (entitiesFor env st.entitiesCache)) = none →
      (path ++ ": Unknown entity registry ID '" ++ rid ++ "'") ∈
        (validate_file_references env st ⟨nm, path, Except.ok (some data)⟩).2.errors ∧
      (validate_file_references env st ⟨nm, path, Except.ok (some data)⟩).1 = false)
    ∧ (∀ eid rec,
        dictLookup rid (buildIdMapping (entitiesFor env st.entitiesCache)) = some eid →
        dictLookup eid (entitiesFor env st.entitiesCache) = some rec →
        rec.disabled_by.isSome = true →
        (path ++ ": Entity registry ID '" ++ rid ++ "' references disabled entity '" ++
          eid ++ "'") ∈
          (validate_file_references env st ⟨nm, path, Except.ok (some data)⟩).2.warnings)
    ∧ ((∀ e ∈ extract_entity_references data,
          entityRefIsError (entitiesFor env st.entitiesCache) e = false) →
       (∀ r ∈ extract_entity_registry_ids data,
          (dictLookup r (buildIdMapping (entitiesFor env st.entitiesCache))).isSome = true) →
       (∀ v ∈ extract_device_references data,
          dictContains v (devicesFor env st.devicesCache) = true) →
       (validate_file_references env st ⟨nm, path, Except.ok (some data)⟩).1 = true) := by
  rw [validate_spec env st nm path data hn]
  refine ⟨?_, ?_, ?_⟩
  · intro hnone
    constructor
    · have hmem : (path ++ ": Unknown entity registry ID '" ++ rid ++ "'") ∈
          ridErrsOf path (buildIdMapping (entitiesFor env st.entitiesCache))
            (extract_entity_registry_ids data).dedup := by
        refine List.mem_map.mpr ⟨rid, List.mem_filter.mpr ⟨List.mem_dedup.mpr hrid, ?_⟩, rfl⟩
        simp [ridIsError, hnone]
      simp only [List.mem_append]
      tauto
    · have hone : (extract_entity_registry_ids data).dedup.all
          (fun r => !ridIsError (buildIdMapping (entitiesFor env st.entitiesCache)) r) =
          false := by
        refine List.all_eq_false.mpr ⟨rid, List.mem_dedup.mpr hrid, ?_⟩
        simp [ridIsError, hnone]
      simp [hone]
  · intro eid rec hsome hrec hdis
    have hmem : (path ++ ": Entity registry ID '" ++ rid ++
        "' references disabled entity '" ++ eid ++ "'") ∈
        ridWarnsOf path (entitiesFor env st.entitiesCache)
          (buildIdMapping (entitiesFor env st.entitiesCache))
          (extract_entity_registry_ids data).dedup := by
      refine List.mem_map.mpr ⟨rid, List.mem_filter.mpr ⟨List.mem_dedup.mpr hrid, ?_⟩, ?_⟩
      · simp [ridIsWarn, hsome, hrec, hdis]
      · simp [disabledRidMsg, hsome]
    simp only [List.mem_append]
    tauto
  · intro h1 h2 h3
    have a1 : (extract_entity_references data).dedup.all
        (fun e => !entityRefIsError (entitiesFor env st.entitiesCache) e) = true := by
      rw [List.all_eq_true]
      intro e he
      simp [h1 e (List.mem_dedup.mp he)]
    have a2 : (extract_entity_registry_ids data).dedup.all
        (fun r => !ridIsError (buildIdMapping (entitiesFor env st.entitiesCache)) r) = true := by
      rw [List.all_eq_true]
      intro r hr
      have h := h2 r (List.mem_dedup.mp hr)
      cases hq : dictLookup r (buildIdMapping (entitiesFor env st.entitiesCache)) with
      | none => rw [hq] at h; simp at h
      | some a => simp [ridIsError, hq]
    have a3 : (extract_device_references data).dedup.all
        (fun v => !devIsError (devicesFor env st.devicesCache) v) = true := by
      rw [List.all_eq_true]
      intro v hv
      simp [devIsError, h3 v (List.mem_dedup.mp hv)]
    simp [a1, a2, a3]


/-- Load messages of any cache state are among those of the empty cache. -/
lemma entLoadMsgs_subset_pool (env : Storage) (c : Option (Dict EntityRecord))
    {m : String} (h : m ∈ entLoadMsgs env c) : m ∈ entLoadMsgs env none := by
  cases c with
  | some d => simp [entLoadMsgs] at h
  | none => exact h

/-- Load messages of any device cache state are among those of the empty
cache. -/
lemma devLoadMsgs_subset_pool (env : Storage) (c : Option (Dict DeviceRecord))
    {m : String} (h : m ∈ devLoadMsgs env c) : m ∈ devLoadMsgs env none := by
  cases c with
  | some d => simp [devLoadMsgs] at h
  | none => exact h

/-- A true `all` empties the corresponding filtered message list. -/
lemma msgs_nil_of_all {p : String → Bool} {g : String → String} {l : List String}
    (h : l.all (fun x => !p x) = true) : (l.filter p).map g = [] := by
  have : l.filter p = [] := by
    rw [List.filter_eq_nil]
    intro x hx
    have := List.all_eq_true.mp h x hx
    simp at this
    simp [this]
  rw [this]
  rfl

/-- A false `all` makes the corresponding filtered list non-empty. -/
lemma msgs_pos_of_not_all {p : String → Bool} {l : List String}
    (h : l.all (fun x => !p x) = false) : 0 < (l.filter p).length := by
  obtain ⟨x, hx, hpx⟩ := List.all_eq_false.mp h
  have hp : p x = true := by simpa using hpx
  have hmem : x ∈ l.filter p := List.mem_filter.mpr ⟨hx, hp⟩
  have hne : l.filter p ≠ [] := by
    intro hnil
    rw [hnil] at hmem
    simp at hmem
  exact List.length_pos.mpr hne

/-- C4 (amended): the verdict is false only after an error was appended;
when it is true, every error appended while processing the file is a
registry-load error, never a reference error; and the verdict never depends
on the warnings list. -/
theorem c4_amended (env : Storage) (st : VState) (file : FileInput) :
    ((validate_file_references env st file).1 = false →
      st.errors.length < (validate_file_references env st file).2.errors.length)
    ∧ ((validate_file_references env st file).1 = true →
      ∀ m ∈ (validate_file_references env st file).2.errors,
        m ∈ st.errors ∨ m ∈ registryLoadErrorPool env)
    ∧ (∀ w, (validate_file_references env { st with warnings := w } file).1 =
        (validate_file_references env st file).1) := by
  obtain ⟨nm, path, content⟩ := file
  by_cases hn : (nm == "secrets.yaml") = true
  · refine ⟨?_, ?_, ?_⟩ <;> simp [validate_file_references, hn]
    intro m hm
    exact Or.inl hm
  · have hn' : (nm == "secrets.yaml") = false := by simpa using hn
    cases content with
    | error e =>
      refine ⟨?_, ?_, ?_⟩ <;> simp [validate_file_references, hn']
    | ok oc =>
      cases oc with
      | none =>
        refine ⟨?_, ?_, ?_⟩ <;> simp [validate_file_references, hn']
        intro m hm
        exact Or.inl hm
      | some data =>
        refine ⟨?_, ?_, ?_⟩
        · rw [validate_spec env st nm path data hn']
          intro hv
          simp only at hv
          cases hA : (extract_entity_references data).dedup.all
              (fun e => !entityRefIsError (entitiesFor env st.entitiesCache) e) with
          | false =>
            have := msgs_pos_of_not_all hA
            simp [entErrsOf, List.length_append, List.length_map]
            omega
          | true =>
            cases hB : (extract_entity_registry_ids data).dedup.all
                (fun r => !ridIsError (buildIdMapping (entitiesFor env st.entitiesCache)) r) with
            | false =>
              have := msgs_pos_of_not_all hB
              simp [ridErrsOf, List.length_append, List.length_map]
              omega
            | true =>
              cases hC : (extract_device_references data).dedup.all
                  (fun v => !devIsError (devicesFor env st.devicesCache) v) with
              | false =>
                have := msgs_pos_of_not_all hC
                simp [devErrsOf, List.length_append, List.length_map]
                omega
              | true =>
                rw [hA, hB, hC] at hv
                simp at hv
        · rw [validate_spec env st nm path data hn']
          intro hv m hm
          simp only at hv
          have hABC := hv
          cases hA : (extract_entity_references data).dedup.all
              (fun e => !entityRefIsError (entitiesFor env st.entitiesCache) e) with
          | false => rw [hA] at hABC; simp at hABC
          | true =>
            cases hB : (extract_entity_registry_ids data).dedup.all
                (fun r => !ridIsError (buildIdMapping (entitiesFor env st.entitiesCache)) r) with
            | false => rw [hA, hB] at hABC; simp at hABC
            | true =>
              cases hC : (extract_device_references data).dedup.all
                  (fun v => !devIsError (devicesFor env st.devicesCache) v) with
              | false => rw [hA, hB, hC] at hABC; simp at hABC
              | true =>
                have e1 : entErrsOf path (entitiesFor env st.entitiesCache)
                    (extract_entity_references data).dedup = [] := msgs_nil_of_all hA
                have e2 : ridErrsOf path (buildIdMapping (entitiesFor env st.entitiesCache))
                    (extract_entity_registry_ids data).dedup = [] := msgs_nil_of_all hB
                have e3 : devErrsOf path (devicesFor env st.devicesCache)
                    (extract_device_references data).dedup = [] := msgs_nil_of_all hC
                rw [e1, e2, e3] at hm
                simp only [List.append_nil, List.mem_append] at hm
                rcases hm with ((hm | hm) | hm) | hm
                · exact Or.inl hm
                · exact Or.inr (by
                    simp only [registryLoadErrorPool, List.mem_append]
                    exact Or.inl (entLoadMsgs_subset_pool env _ hm))
                · exact Or.inr (by
                    simp only [registryLoadErrorPool, List.mem_append]
                    exact Or.inr (devLoadMsgs_subset_pool env _ hm))
                · exact Or.inr (by
                    simp only [registryLoadErrorPool, List.mem_append]
                    exact Or.inl (entLoadMsgs_subset_pool env _ hm))
        · intro w
          rw [validate_spec env { st with warnings := w } nm path data hn',
            validate_spec env st nm path data hn']


/-- C1: evaluating `extract_entity_references` on an `entity_ids` list
holding `"all"`, a template string and `"binary_sensor.door"`: the code
returns all three values, not only `"binary_sensor.door"` — it filters only
tag placeholders and UUID-shaped strings, never templates or the special
keywords. -/
theorem c1_code_eval :
    extract_entity_references docSpecialAndTemplate =
      ["all", "\x7b\x7b states('sensor.temperature') \x7d\x7d",
        "binary_sensor.door"] := by
  decide

/-- C2: evaluating the code on a file referencing a disabled entity that is
present in the registry: the verdict is true, but no warning (and no error)
is appended — the disabled-entity branch is unreachable because the
registry dict already contains every disabled entity's key. -/
theorem c2_code_eval :
    (validate_file_references envReg initState
        (mkFile (docPlainRef "sensor.disabled_sensor"))).1 = true ∧
    (validate_file_references envReg initState
        (mkFile (docPlainRef "sensor.disabled_sensor"))).2.warnings = [] ∧
    (validate_file_references envReg initState
        (mkFile (docPlainRef "sensor.disabled_sensor"))).2.errors = [] := by
  refine ⟨?_, ?_, ?_⟩ <;> decide

/-- C3 witness: the spec's Scenario 2 — a well-formed registry id absent
from the registry yields the "Unknown entity registry ID" error and a false
verdict. -/
theorem c3_witness :
    ("config/automations.yaml: Unknown entity registry ID 'ffffffffffffffffffffffffffffffff'") ∈
      (validate_file_references envReg initState
        (mkFile (docPlainRef "ffffffffffffffffffffffffffffffff"))).2.errors ∧
    (validate_file_references envReg initState
        (mkFile (docPlainRef "ffffffffffffffffffffffffffffffff"))).1 = false := by
  have h := (c3_registry_id_checks envReg initState "automations.yaml"
    "config/automations.yaml" (docPlainRef "ffffffffffffffffffffffffffffffff")
    "ffffffffffffffffffffffffffffffff" (by decide) (by decide)).1 (by decide)
  exact h

/-- C4 counterexample: with every registry snapshot missing, a file with no
references is reported valid although errors were appended to the error
list while it was processed — refuting "true iff no error was appended". -/
theorem c4_counterexample :
    (validate_file_references envNone initState (mkFile docNoRefs)).1 = true ∧
    (validate_file_references envNone initState (mkFile docNoRefs)).2.errors ≠ [] := by
  constructor <;> decide

/-- C4 witness: at a concrete input with a true verdict, every appended
error is a registry-load error. -/
theorem c4_witness :
    ∀ m ∈ (validate_file_references envNone initState (mkFile docNoRefs)).2.errors,
      m ∈ initState.errors ∨ m ∈ registryLoadErrorPool envNone :=
  (c4_amended envNone initState (mkFile docNoRefs)).2.1 (by decide)

/-- C5: the plain-entity extraction and the registry-id extraction are
disjoint on every document — nothing UUID-shaped enters the former, and
everything in the latter is UUID-shaped. -/
theorem c5_disjoint (d : Yaml) (x : String)
    (h : x ∈ extract_entity_references d) :
    x ∉ extract_entity_registry_ids d := by
  intro h2
  have h3 := mem_entity_refs_not_uuid d x h
  have h4 := mem_registry_ids_uuid d x h2
  rw [h3] at h4
  cases h4

/-- C5 witness: a concrete plain reference is in the first set and not in
the second. -/
theorem c5_witness :
    "sensor.a" ∈ extract_entity_references (docPlainRef "sensor.a") ∧
    "sensor.a" ∉ extract_entity_registry_ids (docPlainRef "sensor.a") :=
  ⟨by decide, c5_disjoint (docPlainRef "sensor.a") "sensor.a" (by decide)⟩

/-- C6: with the registry ids pairwise distinct (the data model declares
them unique per registry), the derived registry-id → entity-id mapping
inverts every record that carries an `id`. -/
theorem c6_id_mapping_inverse (env : Storage) (st : VState)
    (h : ((dictValues (load_entity_registry env st).1).filterMap EntityRecord.id).Nodup) :
    ∀ rec ∈ dictValues (load_entity_registry env st).1, ∀ i, rec.id = some i →
      dictLookup i (get_entity_registry_id_mapping env st).1 = some rec.entity_id := by
  intro rec hrec i hid
  rw [get_mapping_fst]
  unfold buildIdMapping
  exact foldl_idMapStep_mem _ _ _ _ h hrec hid

/-- C6 witness: the fixture registry's enabled record is inverted by the
mapping. -/
theorem c6_witness :
    dictLookup "aabbccddeeff00112233445566778899"
      (get_entity_registry_id_mapping envReg initState).1 =
      some "sensor.normal_sensor" :=
  c6_id_mapping_inverse envReg initState (by decide) normalRec (by decide)
    "aabbccddeeff00112233445566778899" rfl

/-- C7 (amended): `is_uuid_format` accepts exactly the 32-character
lowercase-hex strings and, because Python's `$` also matches before a final
newline, the 33-character strings made of 32 lowercase-hex characters and a
trailing newline; everything else is rejected. -/
theorem c7_amended (s : String) :
    is_uuid_format s = true ↔
      ((s.toList.length = 32 ∧ ∀ c ∈ s.toList, isLowerHexChar c = true) ∨
        (∃ t, s.toList = t ++ ['\n'] ∧ t.length = 32 ∧
          ∀ c ∈ t, isLowerHexChar c = true)) :=
  is_uuid_format_iff s

/-- C7 counterexample: a 33-character string (32 hex characters plus a
trailing newline) is accepted, refuting "returns false for every string
that is not exactly 32 hex characters". -/
theorem c7_counterexample :
    is_uuid_format hexThenNewline = true ∧ hexThenNewline.toList.length ≠ 32 := by
  constructor <;> decide

/-- C8 (amended): a capture is kept iff it contains a dot and splits into
exactly two dot-separated segments — the segments may be empty, the code
never checks them for non-emptiness. -/
theorem c8_amended (template m : String)
    (h : m ∈ extract_entities_from_template template) :
    '.' ∈ m.toList ∧ (splitChar '.' m.toList).length = 2 :=
  mem_extract_entities_from_template h

/-- C8 counterexample: the capture `"light."` has an empty second segment
yet is returned by the scanner, refuting "an identifier with an empty
segment on either side of the dot is never returned". -/
theorem c8_counterexample :
    "light." ∈ extract_entities_from_template "states('light.')" ∧
    splitChar '.' "light.".toList = [['l', 'i', 'g', 'h', 't'], []] := by
  constructor <;> decide

/-- C8 witness: a well-formed capture is returned and splits into two
segments. -/
theorem c8_witness :
    "a.b" ∈ extract_entities_from_template "states('a.b')" ∧
    (splitChar '.' "a.b".toList).length = 2 :=
  ⟨by decide, (c8_amended "states('a.b')" "a.b" (by decide)).2⟩

/-- C9: a file named `secrets.yaml` is reported valid with the validator
state — error and warning lists included — exactly unchanged, whatever its
content. -/
theorem c9_secrets_skipped (env : Storage) (st : VState) (path : String)
    (content : Except String (Option Yaml)) :
    validate_file_references env st ⟨"secrets.yaml", path, content⟩ = (true, st) := by
  simp [validate_file_references]

/-- C10: with the entity-registry snapshot absent, every call to
`load_entity_registry` (the cache is never populated) appends a fresh
"Entity registry not found" error and returns the empty dict; validating
the same reference-free file twice in one run therefore records the
missing-registry errors repeatedly while both files are reported valid. -/
theorem c10_missing_registry_every_call (env : Storage) (st : VState)
    (h1 : env.entityRegistryFile = none) (h2 : st.entitiesCache = none) :
    (load_entity_registry env st =
      ([], { st with errors := st.errors ++
        ["Entity registry not found: " ++ storagePath env "core.entity_registry"] }))
    ∧ (load_entity_registry env st).2.entitiesCache = none
    ∧ ((validate_file_references envNone initState (mkFile docNoRefs)).1 = true
       ∧ (validate_file_references envNone
            (validate_file_references envNone initState (mkFile docNoRefs)).2
            (mkFile docNoRefs)).1 = true
       ∧ (validate_file_references envNone
            (validate_file_references envNone initState (mkFile docNoRefs)).2
            (mkFile docNoRefs)).2.errors =
          ["Entity registry not found: config/.storage/core.entity_registry",
           "Device registry not found: config/.storage/core.device_registry",
           "Entity registry not found: config/.storage/core.entity_registry",
           "Entity registry not found: config/.storage/core.entity_registry",
           "Device registry not found: config/.storage/core.device_registry",
           "Entity registry not found: config/.storage/core.entity_registry"]) := by
  obtain ⟨errs, warns, ec, dc, ac⟩ := st
  simp only at h2
  subst h2
  refine ⟨?_, ?_, by decide, by decide, by decide⟩
  · simp [load_entity_registry, h1]
  · simp [load_entity_registry, h1]

/-- C10 witness: the theorem applied to the fresh validator and the
registry-less filesystem. -/
theorem c10_witness :
    load_entity_registry envNone initState =
      ([], { initState with errors :=
        ["Entity registry not found: config/.storage/core.entity_registry"] }) := by
  have h := (c10_missing_registry_every_call envNone initState rfl rfl).1
  exact h

end RefValidator
